import Mathlib

/-!
Shallow embedding of the MCPServer operator's reconciliation core
(internal/controller: the child reconcilers, the per-kind condition
evaluators, the overall aggregator, and the Reconcile loop), together
with theorems about its behaviour.
-/

namespace MCPServerOperator

/-- A normalized status condition, mirroring `metav1.Condition` as this
controller uses it. The controller never sets `ObservedGeneration`, so that
field is omitted; `LastTransitionTime` is modelled as a `Nat`, with `0`
standing for the Go zero time. -/
structure Condition where
  type : String
  status : String
  reason : String
  message : String
  lastTransitionTime : Nat
deriving DecidableEq, Repr

/-- metav1.ConditionTrue. -/
def ConditionTrue : String := "True"

/-- metav1.ConditionFalse. -/
def ConditionFalse : String := "False"

/-- metav1.ConditionUnknown. -/
def ConditionUnknown : String := "Unknown"

/-- Constant `mcpServerAppLabelKey` from the controller. -/
def mcpServerAppLabelKey : String := "opendatahub.io/mcp-server"

/-- Condition type constant `DeploymentAvailable`. -/
def DeploymentAvailable : String := "DeploymentAvailable"

/-- Condition type constant `RouteAvailable`. -/
def RouteAvailable : String := "RouteAvailable"

/-- Condition type constant `ServiceAvailable`. -/
def ServiceAvailable : String := "ServiceAvailable"

/-- Condition type constant `OverallAvailable` (the overall type is "Available"). -/
def OverallAvailable : String := "Available"

/-- Reason constant `ReasonNotFoundSuffix`. -/
def ReasonNotFoundSuffix : String := "NotFound"

/-- Reason constant `ReasonReadySuffix`. -/
def ReasonReadySuffix : String := "Ready"

/-- Reason constant `ReasonNotReadySuffix`. -/
def ReasonNotReadySuffix : String := "NotReady"

/-- Reason constant `ReasonGetFailedSuffix`. -/
def ReasonGetFailedSuffix : String := "GetFailed"

/-- Reason constant `ReasonRouteNotAdmitted`. -/
def ReasonRouteNotAdmitted : String := "RouteNotAdmitted"

/-- `meta.FindStatusCondition`: return the first condition in the list whose
type matches, or `none`. -/
def findStatusCondition : List Condition → String → Option Condition
  | [], _ => none
  | c :: rest, t => if c.type = t then some c else findStatusCondition rest t

/-- `meta.IsStatusConditionTrue`: the condition of the given type is present
and its status is "True". -/
def isStatusConditionTrue (conds : List Condition) (t : String) : Bool :=
  match findStatusCondition conds t with
  | some c => c.status == ConditionTrue
  | none => false

/-- The test `cond == nil || cond.Status != metav1.ConditionTrue` performed by
`getOverallCondition` on each looked-up per-kind condition. -/
def conditionNilOrNotTrue : Option Condition → Bool
  | none => true
  | some c => c.status != ConditionTrue

/-- `getOverallCondition` from the controller: look up the three per-kind
conditions on the record's status and fold them, first failing kind winning
in the order Deployment, Service, Route. (The Go code binds the three
lookups to local variables `depCondition`, `svcCondition`, `routeCondition`;
they are inlined here.) -/
def getOverallCondition (conds : List Condition) : Condition :=
  if conditionNilOrNotTrue (findStatusCondition conds DeploymentAvailable) then
    { type := OverallAvailable, status := ConditionFalse,
      reason := "Deployment" ++ ReasonNotReadySuffix,
      message := "Deployment is not yet ready", lastTransitionTime := 0 }
  else if conditionNilOrNotTrue (findStatusCondition conds ServiceAvailable) then
    { type := OverallAvailable, status := ConditionFalse,
      reason := "Service" ++ ReasonNotReadySuffix,
      message := "Service is not yet ready", lastTransitionTime := 0 }
  else if conditionNilOrNotTrue (findStatusCondition conds RouteAvailable) then
    { type := OverallAvailable, status := ConditionFalse,
      reason := "Route" ++ ReasonNotReadySuffix,
      message := "Route is not yet ready", lastTransitionTime := 0 }
  else
    { type := OverallAvailable, status := ConditionTrue,
      reason := "AllComponentsReady",
      message := "All managed components (Deployment, Service, Route) are ready",
      lastTransitionTime := 0 }

/-- The outcome of a `client.Get` call, as the condition evaluators observe
it: not found, some other error (carrying the error text), or the object. -/
inductive GetResult (α : Type) where
  | notFound
  | getError (msg : String)
  | found (obj : α)

/-- One entry of `appsv1.DeploymentStatus.Conditions`; only the four fields
the controller reads are modelled. -/
structure DeploymentCondition where
  type : String
  status : String
  reason : String
  message : String
deriving DecidableEq, Repr

/-- The part of a fetched Deployment the evaluator reads. -/
structure DeploymentResource where
  conditions : List DeploymentCondition
deriving DecidableEq, Repr

/-- The per-entry conversion of the deployment's status conditions into a
`metav1.Condition`, as done by the loop inside `getDeploymentCondition`. -/
def deploymentConditionToMeta (dc : DeploymentCondition) : Condition :=
  { type := dc.type, status := dc.status, reason := dc.reason,
    message := dc.message, lastTransitionTime := 0 }

/-- `getDeploymentCondition` from the controller, with the `client.Get`
outcome made an explicit argument. -/
def getDeploymentCondition (name : String) (res : GetResult DeploymentResource) : Condition :=
  match res with
  | .notFound =>
      { type := DeploymentAvailable, status := ConditionFalse,
        reason := "Deployment" ++ ReasonNotFoundSuffix,
        message := "Deployment " ++ name ++ " cannot be found", lastTransitionTime := 0 }
  | .getError e =>
      { type := DeploymentAvailable, status := ConditionUnknown,
        reason := "Deployment" ++ ReasonGetFailedSuffix,
        message := "Failed to retrieve Deployment " ++ name ++ ", " ++ e,
        lastTransitionTime := 0 }
  | .found dep =>
      let deploymentConditions := dep.conditions.map deploymentConditionToMeta
      if !(isStatusConditionTrue deploymentConditions "Available") then
        { type := DeploymentAvailable, status := ConditionFalse,
          reason := "Deployment" ++ ReasonNotReadySuffix,
          message := "Deployment " ++ name ++ " is not yet available",
          lastTransitionTime := 0 }
      else
        { type := DeploymentAvailable, status := ConditionTrue,
          reason := "Deployment" ++ ReasonReadySuffix,
          message := "Deployment " ++ name ++ " is available", lastTransitionTime := 0 }

/-- `getServiceCondition` from the controller; a found Service carries no
further readiness signal, so the found payload is `Unit`. -/
def getServiceCondition (name : String) (res : GetResult Unit) : Condition :=
  match res with
  | .notFound =>
      { type := ServiceAvailable, status := ConditionFalse,
        reason := "Service" ++ ReasonNotFoundSuffix,
        message := "Service " ++ name ++ " not found", lastTransitionTime := 0 }
  | .getError e =>
      { type := ServiceAvailable, status := ConditionUnknown,
        reason := "Service" ++ ReasonGetFailedSuffix,
        message := "Failed to get Service " ++ name ++ ": " ++ e, lastTransitionTime := 0 }
  | .found _ =>
      { type := ServiceAvailable, status := ConditionTrue,
        reason := "Service" ++ ReasonReadySuffix,
        message := "Service " ++ name ++ " exists and is available", lastTransitionTime := 0 }

/-- One entry of `routev1.RouteIngress.Conditions`; the evaluator reads only
the type and status. -/
structure RouteIngressCondition where
  type : String
  status : String
deriving DecidableEq, Repr

/-- One entry of `routev1.RouteStatus.Ingress`. -/
structure RouteIngress where
  conditions : List RouteIngressCondition
deriving DecidableEq, Repr

/-- The part of a fetched Route the evaluator reads. -/
structure RouteResource where
  ingress : List RouteIngress
deriving DecidableEq, Repr

/-- The `admitted` double loop of `getRouteCondition` (early `break`s make it
equivalent to an any-of-any search for an Admitted=True ingress condition). -/
def routeAdmitted (ingressList : List RouteIngress) : Bool :=
  ingressList.any fun ing =>
    ing.conditions.any fun c => c.type == "Admitted" && c.status == ConditionTrue

/-- `getRouteCondition` from the controller, with the `client.Get` outcome
made an explicit argument. -/
def getRouteCondition (name : String) (res : GetResult RouteResource) : Condition :=
  match res with
  | .notFound =>
      { type := RouteAvailable, status := ConditionFalse,
        reason := "Route" ++ ReasonNotFoundSuffix,
        message := "Route " ++ name ++ " not found", lastTransitionTime := 0 }
  | .getError e =>
      { type := RouteAvailable, status := ConditionUnknown,
        reason := "Route" ++ ReasonGetFailedSuffix,
        message := "Failed to get Route " ++ name ++ ": " ++ e, lastTransitionTime := 0 }
  | .found rt =>
      let admitted := routeAdmitted rt.ingress
      if !admitted then
        { type := RouteAvailable, status := ConditionFalse,
          reason := ReasonRouteNotAdmitted,
          message := "Route " ++ name ++ " has not been admitted by a router yet",
          lastTransitionTime := 0 }
      else
        { type := RouteAvailable, status := ConditionTrue,
          reason := "Route" ++ ReasonReadySuffix,
          message := "Route " ++ name ++ " is admitted and active", lastTransitionTime := 0 }

theorem conditionNilOrNotTrue_eq (conds : List Condition) (t : String) :
    conditionNilOrNotTrue (findStatusCondition conds t)
      = !(isStatusConditionTrue conds t) := by
  unfold isStatusConditionTrue
  cases findStatusCondition conds t with
  | none => rfl
  | some c => rfl

/-- Claim C1: for every stored condition set, `getOverallCondition` returns a
condition of type "Available" whose status is True exactly when the
DeploymentAvailable, ServiceAvailable and RouteAvailable conditions are all
present with status True (reason "AllComponentsReady"); otherwise its status
is False and its reason is that of the first kind, in the order Deployment,
Service, Route, whose condition is missing or not True. -/
theorem getOverallCondition_matches_spec (conds : List Condition) :
    (getOverallCondition conds).type = OverallAvailable
    ∧ (getOverallCondition conds).status
        = (if isStatusConditionTrue conds DeploymentAvailable
              && isStatusConditionTrue conds ServiceAvailable
              && isStatusConditionTrue conds RouteAvailable
           then ConditionTrue else ConditionFalse)
    ∧ (getOverallCondition conds).reason
        = (if !(isStatusConditionTrue conds DeploymentAvailable) then "DeploymentNotReady"
           else if !(isStatusConditionTrue conds ServiceAvailable) then "ServiceNotReady"
           else if !(isStatusConditionTrue conds RouteAvailable) then "RouteNotReady"
           else "AllComponentsReady") := by
  cases hdep : isStatusConditionTrue conds DeploymentAvailable <;>
    cases hsvc : isStatusConditionTrue conds ServiceAvailable <;>
      cases hroute : isStatusConditionTrue conds RouteAvailable <;>
        refine ⟨?_, ?_, ?_⟩ <;>
          simp [getOverallCondition, conditionNilOrNotTrue_eq, hdep, hsvc, hroute,
            ReasonNotReadySuffix]

/-- Claim C10: the condition returned by `getOverallCondition` always has type
"Available" and status True or False, never Unknown, whatever the stored
per-kind conditions are (an Unknown child collapses to overall False). -/
theorem getOverallCondition_status_never_unknown (conds : List Condition) :
    (getOverallCondition conds).type = OverallAvailable
    ∧ ((getOverallCondition conds).status = ConditionTrue
        ∨ (getOverallCondition conds).status = ConditionFalse)
    ∧ (getOverallCondition conds).status ≠ ConditionUnknown := by
  unfold getOverallCondition
  refine ⟨?_, ?_, ?_⟩ <;> (repeat' split) <;> simp [ConditionTrue, ConditionFalse, ConditionUnknown]

/-- The desired-state record (`mcpserverv1.MCPServer`): name/namespace
identity, the spec fields `image`, `command`, `args`, and the status
condition set. An unset optional list field is the empty list (Go nil). -/
structure MCPServer where
  name : String
  ns : String
  image : String
  command : List String
  args : List String
  statusConditions : List Condition
deriving DecidableEq, Repr

/-- corev1.ContainerPort (fields used by the controller). -/
structure ContainerPort where
  containerPort : Nat
  name : String
deriving DecidableEq, Repr

/-- corev1.Container (fields set by the controller). -/
structure Container where
  image : String
  name : String
  ports : List ContainerPort
  command : List String
  args : List String
deriving DecidableEq, Repr

/-- corev1.PodSpec (fields set by the controller). -/
structure PodSpec where
  containers : List Container
deriving DecidableEq, Repr

/-- corev1.PodTemplateSpec (fields set by the controller). -/
structure PodTemplateSpec where
  labels : List (String × String)
  spec : PodSpec
deriving DecidableEq, Repr

/-- metav1.LabelSelector (fields set by the controller). -/
structure LabelSelector where
  matchLabels : List (String × String)
deriving DecidableEq, Repr

/-- appsv1.DeploymentSpec (fields set by the controller). -/
structure DeploymentSpec where
  selector : LabelSelector
  template : PodTemplateSpec
deriving DecidableEq, Repr

/-- The Deployment object the deployment reconciler constructs. -/
structure DeploymentDesired where
  apiVersion : String
  kind : String
  name : String
  ns : String
  labels : List (String × String)
  spec : DeploymentSpec
deriving DecidableEq, Repr

/-- The Deployment constructed inside `reconcileMCPServerDeployment`:
single container, fixed port 8000 named "http", fixed command and args
(the record's `command`/`args` fields are not consulted). -/
def buildDeployment (cr : MCPServer) : DeploymentDesired :=
  let labels := [(mcpServerAppLabelKey, cr.name)]
  { apiVersion := "apps/v1", kind := "Deployment",
    name := cr.name, ns := cr.ns, labels := labels,
    spec :=
      { selector := { matchLabels := labels },
        template :=
          { labels := labels,
            spec :=
              { containers :=
                  [{ image := cr.image, name := "mcp-server",
                     ports := [{ containerPort := 8000, name := "http" }],
                     command := ["./kubernetes-mcp-server"],
                     args := ["--port", "8000", "--log-level", "9"] }] } } } }

/-- corev1.ServicePort (fields set by the controller). -/
structure ServicePort where
  name : String
  port : Nat
  targetPort : String
  protocol : String
deriving DecidableEq, Repr

/-- corev1.ServiceSpec (fields set by the controller). -/
structure ServiceSpec where
  selector : List (String × String)
  ports : List ServicePort
deriving DecidableEq, Repr

/-- The Service object the service reconciler constructs. -/
structure ServiceDesired where
  apiVersion : String
  kind : String
  name : String
  ns : String
  labels : List (String × String)
  spec : ServiceSpec
deriving DecidableEq, Repr

/-- The Service constructed inside `reconcileMCPServerService`. -/
def buildService (cr : MCPServer) : ServiceDesired :=
  let labels := [(mcpServerAppLabelKey, cr.name)]
  { apiVersion := "v1", kind := "Service",
    name := cr.name, ns := cr.ns, labels := labels,
    spec :=
      { selector := labels,
        ports := [{ name := "http", port := 8000, targetPort := "http",
                    protocol := "TCP" }] } }

/-- routev1.RouteTargetReference (fields set by the controller). -/
structure RouteTargetReference where
  kind : String
  name : String
deriving DecidableEq, Repr

/-- routev1.RoutePort (fields set by the controller). -/
structure RoutePort where
  targetPort : String
deriving DecidableEq, Repr

/-- The Route object the route reconciler constructs. The source sets no
`Path` in the route spec, so `path` is the Go zero value "". -/
structure RouteDesired where
  apiVersion : String
  kind : String
  name : String
  ns : String
  labels : List (String × String)
  path : String
  toRef : RouteTargetReference
  port : RoutePort
deriving DecidableEq, Repr

/-- The Route constructed inside `reconcileMCPServerRoute`: backend is the
Service of the same name, target port "http", and no path is set. -/
def buildRoute (cr : MCPServer) : RouteDesired :=
  let labels := [(mcpServerAppLabelKey, cr.name)]
  { apiVersion := "route.openshift.io/v1", kind := "Route",
    name := cr.name, ns := cr.ns, labels := labels,
    path := "",
    toRef := { kind := "Service", name := cr.name },
    port := { targetPort := "http" } }

/-- The outcome of the `cli.Create` call as the reconcilers observe it:
success, an already-exists error, or any other error (with its text). -/
inductive CreateResult where
  | ok
  | alreadyExists
  | otherError (msg : String)
deriving DecidableEq, Repr

/-- What one child reconcile call did: the error it returned (`none` = Go
`nil`) and the list of cluster create calls it issued. -/
structure EnsureResult (α : Type) where
  error : Option String
  attemptedCreates : List α

/-- `reconcileMCPServerDeployment`: build the Deployment, set the controller
reference (its possible error is the `setRefErr` argument), then create; an
already-exists error from the create is treated as success, any other create
error is returned unchanged. -/
def reconcileMCPServerDeployment (cr : MCPServer) (setRefErr : Option String)
    (createRes : CreateResult) : EnsureResult DeploymentDesired :=
  let deployment := buildDeployment cr
  match setRefErr with
  | some e => { error := some e, attemptedCreates := [] }
  | none =>
    match createRes with
    | .ok => { error := none, attemptedCreates := [deployment] }
    | .alreadyExists => { error := none, attemptedCreates := [deployment] }
    | .otherError e => { error := some e, attemptedCreates := [deployment] }

/-- `reconcileMCPServerService`: same create/error policy as the deployment
reconciler, for the Service object. -/
def reconcileMCPServerService (cr : MCPServer) (setRefErr : Option String)
    (createRes : CreateResult) : EnsureResult ServiceDesired :=
  let service := buildService cr
  match setRefErr with
  | some e => { error := some e, attemptedCreates := [] }
  | none =>
    match createRes with
    | .ok => { error := none, attemptedCreates := [service] }
    | .alreadyExists => { error := none, attemptedCreates := [service] }
    | .otherError e => { error := some e, attemptedCreates := [service] }

/-- `reconcileMCPServerRoute`: same create/error policy as the deployment
reconciler, for the Route object. -/
def reconcileMCPServerRoute (cr : MCPServer) (setRefErr : Option String)
    (createRes : CreateResult) : EnsureResult RouteDesired :=
  let route := buildRoute cr
  match setRefErr with
  | some e => { error := some e, attemptedCreates := [] }
  | none =>
    match createRes with
    | .ok => { error := none, attemptedCreates := [route] }
    | .alreadyExists => { error := none, attemptedCreates := [route] }
    | .otherError e => { error := some e, attemptedCreates := [route] }

/-- The record the repository's unit test builds for the custom command/args
case: spec command ["/bin/sh"] and custom args. -/
def crWithCustoms : MCPServer :=
  { name := "test-mcpserver", ns := "test-namespace", image := "test-image",
    command := ["/bin/sh"], args := ["-c", "echo custom"], statusConditions := [] }

/-- Claim C2: the deployment built by the deployment reconciler ignores the
record's `command` and `args` entirely and always uses the fixed command and
args, even when the record sets custom ones. The repository's own unit test
expects the custom command and args to be used, so the source contradicts its
test here; this theorem evaluates the source's builder at the test's custom
record. (Single container, port 8000 and the ownership-label selector do
hold.) -/
theorem buildDeployment_ignores_record_command :
    ((buildDeployment crWithCustoms).spec.template.spec.containers.map
        fun c => (c.command, c.args))
      = [(["./kubernetes-mcp-server"], ["--port", "8000", "--log-level", "9"])]
    ∧ crWithCustoms.command ≠ ["./kubernetes-mcp-server"]
    ∧ crWithCustoms.args ≠ ["--port", "8000", "--log-level", "9"]
    ∧ (buildDeployment crWithCustoms).spec.selector.matchLabels
        = [(mcpServerAppLabelKey, crWithCustoms.name)]
    ∧ ((buildDeployment crWithCustoms).spec.template.spec.containers.map
        fun c => c.ports) = [[{ containerPort := 8000, name := "http" }]] := by
  refine ⟨rfl, by decide, by decide, rfl, rfl⟩

/-- A concrete desired-state record (the name the e2e test uses). -/
def crSample : MCPServer :=
  { name := "mcp-server-test", ns := "mcp-server-operator-system",
    image := "quay.io/example/mcp-server", command := [], args := [],
    statusConditions := [] }

/-- Claim C3: the Route built by the route reconciler has backend Service of
the same name and target port "http", but its path is the empty string, not
"/sse": the source sets no path, while the repository's e2e test requires a
non-empty route path and the docs use the "/sse" path. Evaluated at a
concrete record. -/
theorem buildRoute_path_not_sse :
    (buildRoute crSample).path = ""
    ∧ ¬ (buildRoute crSample).path = "/sse"
    ∧ (buildRoute crSample).toRef.kind = "Service"
    ∧ (buildRoute crSample).toRef.name = crSample.name
    ∧ (buildRoute crSample).port.targetPort = "http" := by
  refine ⟨rfl, by decide, rfl, rfl, rfl⟩

/-- Claim C4: `getDeploymentCondition` returns DeploymentNotFound (False) on a
not-found get, DeploymentGetFailed (Unknown, underlying error text embedded in
the message) on any other get error, DeploymentNotReady (False) when the
deployment is found but its own "Available" sub-condition is not explicitly
True (including a missing status), and DeploymentReady (True) when it is. -/
theorem getDeploymentCondition_cases (name e : String) (dep : DeploymentResource) :
    getDeploymentCondition name GetResult.notFound
      = { type := DeploymentAvailable, status := ConditionFalse,
          reason := "DeploymentNotFound",
          message := "Deployment " ++ name ++ " cannot be found",
          lastTransitionTime := 0 }
    ∧ getDeploymentCondition name (GetResult.getError e)
      = { type := DeploymentAvailable, status := ConditionUnknown,
          reason := "DeploymentGetFailed",
          message := "Failed to retrieve Deployment " ++ name ++ ", " ++ e,
          lastTransitionTime := 0 }
    ∧ getDeploymentCondition name (GetResult.found dep)
      = (if isStatusConditionTrue (dep.conditions.map deploymentConditionToMeta)
              "Available" then
           { type := DeploymentAvailable, status := ConditionTrue,
             reason := "DeploymentReady",
             message := "Deployment " ++ name ++ " is available",
             lastTransitionTime := 0 }
         else
           { type := DeploymentAvailable, status := ConditionFalse,
             reason := "DeploymentNotReady",
             message := "Deployment " ++ name ++ " is not yet available",
             lastTransitionTime := 0 })
    ∧ isStatusConditionTrue ([] : List Condition) "Available" = false := by
  refine ⟨rfl, rfl, ?_, rfl⟩
  cases h : isStatusConditionTrue (dep.conditions.map deploymentConditionToMeta)
      "Available" <;>
    simp [getDeploymentCondition, h, ReasonNotReadySuffix, ReasonReadySuffix]

/-- Claim C5: `getRouteCondition` returns RouteNotFound (False) on a
not-found get, RouteGetFailed (Unknown) on any other get error,
RouteNotAdmitted (False) when the route is found but no ingress entry carries
an Admitted sub-condition with status True (in particular when there are no
ingress entries at all), and RouteReady (True) when at least one does. -/
theorem getRouteCondition_cases (name e : String) (rt : RouteResource) :
    getRouteCondition name GetResult.notFound
      = { type := RouteAvailable, status := ConditionFalse,
          reason := "RouteNotFound",
          message := "Route " ++ name ++ " not found", lastTransitionTime := 0 }
    ∧ getRouteCondition name (GetResult.getError e)
      = { type := RouteAvailable, status := ConditionUnknown,
          reason := "RouteGetFailed",
          message := "Failed to get Route " ++ name ++ ": " ++ e,
          lastTransitionTime := 0 }
    ∧ getRouteCondition name (GetResult.found rt)
      = (if routeAdmitted rt.ingress then
           { type := RouteAvailable, status := ConditionTrue,
             reason := "RouteReady",
             message := "Route " ++ name ++ " is admitted and active",
             lastTransitionTime := 0 }
         else
           { type := RouteAvailable, status := ConditionFalse,
             reason := "RouteNotAdmitted",
             message := "Route " ++ name ++ " has not been admitted by a router yet",
             lastTransitionTime := 0 })
    ∧ routeAdmitted [] = false
    ∧ (routeAdmitted rt.ingress = true
        ↔ ∃ ing ∈ rt.ingress, ∃ c ∈ ing.conditions,
            c.type = "Admitted" ∧ c.status = ConditionTrue) := by
  refine ⟨rfl, rfl, ?_, rfl, ?_⟩
  · cases h : routeAdmitted rt.ingress <;>
      simp [getRouteCondition, h, ReasonRouteNotAdmitted, ReasonReadySuffix]
  · simp [routeAdmitted]

/-- Claim C6: for each of the three child reconcilers, when the controller
reference was set successfully, an already-exists create error yields success
(nil error) with no second write, any other create error is returned
unchanged, a successful create yields success; exactly one create call is
issued in every case. -/
theorem reconcileChildren_create_error_policy (cr : MCPServer) (res : CreateResult) :
    ((reconcileMCPServerDeployment cr none res).error
        = match res with | CreateResult.otherError e => some e | _ => none)
    ∧ (reconcileMCPServerDeployment cr none res).attemptedCreates.length = 1
    ∧ ((reconcileMCPServerService cr none res).error
        = match res with | CreateResult.otherError e => some e | _ => none)
    ∧ (reconcileMCPServerService cr none res).attemptedCreates.length = 1
    ∧ ((reconcileMCPServerRoute cr none res).error
        = match res with | CreateResult.otherError e => some e | _ => none)
    ∧ (reconcileMCPServerRoute cr none res).attemptedCreates.length = 1 := by
  cases res <;>
    simp [reconcileMCPServerDeployment, reconcileMCPServerService,
      reconcileMCPServerRoute]

/-- The in-place update `meta.SetStatusCondition` performs on an existing
condition of the same type: the status (and, with it, the transition
timestamp) changes only when the new status differs; reason and message are
taken from the new condition. (`ObservedGeneration`, never set by this
controller, is omitted.) -/
def updateCondition (c nc : Condition) (now : Nat) : Condition :=
  let c1 :=
    if c.status = nc.status then c
    else
      { c with
        status := nc.status
        lastTransitionTime :=
          if nc.lastTransitionTime ≠ 0 then nc.lastTransitionTime else now }
  { c1 with reason := nc.reason, message := nc.message }

/-- `meta.SetStatusCondition`: update the first condition with the same type
in place, or append the new condition (stamping the current time when its
transition time is zero). -/
def setStatusCondition (now : Nat) : List Condition → Condition → List Condition
  | [], nc =>
      [{ nc with lastTransitionTime :=
           if nc.lastTransitionTime = 0 then now else nc.lastTransitionTime }]
  | c :: rest, nc =>
      if c.type = nc.type then updateCondition c nc now :: rest
      else c :: setStatusCondition now rest nc

/-- The observable cluster-side actions of one `Reconcile` invocation, in
order: which child reconcilers ran and whether a status update was issued. -/
inductive Step where
  | reconcileDeploymentStep
  | reconcileServiceStep
  | reconcileRouteStep
  | statusUpdateStep
deriving DecidableEq, Repr

/-- `ctrl.Result`: the requeue delay in seconds, or none (the empty result).
The source requeues with `15 * time.Second`. -/
structure CtrlResult where
  requeueAfterSeconds : Option Nat
deriving DecidableEq, Repr

/-- Everything the cluster contributes to one `Reconcile` invocation: the
controller-reference and create outcomes for the three children, the get
outcomes the three condition evaluators see, the status-update outcome, and
the current time used for transition timestamps. -/
structure ReconcileEnv where
  depSetRef : Option String
  depCreate : CreateResult
  svcSetRef : Option String
  svcCreate : CreateResult
  routeSetRef : Option String
  routeCreate : CreateResult
  depGet : GetResult DeploymentResource
  svcGet : GetResult Unit
  routeGet : GetResult RouteResource
  updateErr : Option String
  now : Nat

/-- What one `Reconcile` invocation returned and did: the `ctrl.Result`, the
returned error, the ordered list of performed steps, the record's in-memory
condition set at the end, and whether a status update call was issued. -/
structure ReconcileOutcome where
  result : CtrlResult
  error : Option String
  steps : List Step
  finalConditions : List Condition
  statusWritten : Bool
deriving Repr

/-- The record's condition set after merging the three freshly evaluated
per-kind conditions (the Go locals obtained from the first three
`meta.SetStatusCondition` calls in `Reconcile`). -/
def mergedThree (cr : MCPServer) (env : ReconcileEnv) : List Condition :=
  setStatusCondition env.now
    (setStatusCondition env.now
      (setStatusCondition env.now cr.statusConditions
        (getDeploymentCondition cr.name env.depGet))
      (getServiceCondition cr.name env.svcGet))
    (getRouteCondition cr.name env.routeGet)

/-- The record's condition set after additionally merging the overall
condition (computed, as in the source, from the already-merged set). -/
def mergedConditions (cr : MCPServer) (env : ReconcileEnv) : List Condition :=
  setStatusCondition env.now (mergedThree cr env)
    (getOverallCondition (mergedThree cr env))

/-- The four conditions freshly computed during a pass, with the overall one
taken over the record's snapshot (which equals the merged set whenever the
three per-kind merges change nothing). -/
def computedConditions (cr : MCPServer) (env : ReconcileEnv) : List Condition :=
  [getDeploymentCondition cr.name env.depGet,
   getServiceCondition cr.name env.svcGet,
   getRouteCondition cr.name env.routeGet,
   getOverallCondition cr.statusConditions]

/-- The error of the first failing child reconciler in the fixed order
Deployment, Service, Route, or `none` when all three succeed. -/
def firstChildError (cr : MCPServer) (env : ReconcileEnv) : Option String :=
  match (reconcileMCPServerDeployment cr env.depSetRef env.depCreate).error with
  | some e => some e
  | none =>
    match (reconcileMCPServerService cr env.svcSetRef env.svcCreate).error with
    | some e => some e
    | none => (reconcileMCPServerRoute cr env.routeSetRef env.routeCreate).error

/-- The child-reconciler steps a pass performs: it stops after the first
failing child, in the fixed order Deployment, Service, Route. -/
def childStepsTrace (cr : MCPServer) (env : ReconcileEnv) : List Step :=
  match (reconcileMCPServerDeployment cr env.depSetRef env.depCreate).error with
  | some _ => [Step.reconcileDeploymentStep]
  | none =>
    match (reconcileMCPServerService cr env.svcSetRef env.svcCreate).error with
    | some _ => [Step.reconcileDeploymentStep, Step.reconcileServiceStep]
    | none => [Step.reconcileDeploymentStep, Step.reconcileServiceStep,
               Step.reconcileRouteStep]

/-- `Reconcile` from mcpserver_controller.go: fetch the record, snapshot its
status, run the three child reconcilers in order aborting on the first error,
merge the four freshly evaluated conditions (the source's four
`meta.SetStatusCondition` calls are factored into `mergedThree` and
`mergedConditions`), issue a status update only when the merged set differs
from the snapshot (`reflect.DeepEqual`), and requeue after 15 seconds unless
the overall condition is True. -/
def Reconcile (crGet : GetResult MCPServer) (env : ReconcileEnv) : ReconcileOutcome :=
  match crGet with
  | .notFound =>
      { result := { requeueAfterSeconds := none }, error := none, steps := [],
        finalConditions := [], statusWritten := false }
  | .getError e =>
      { result := { requeueAfterSeconds := none }, error := some e, steps := [],
        finalConditions := [], statusWritten := false }
  | .found mcpServer =>
    let originalStatus := mcpServer.statusConditions
    match (reconcileMCPServerDeployment mcpServer env.depSetRef env.depCreate).error with
    | some e =>
        { result := { requeueAfterSeconds := none }, error := some e,
          steps := [Step.reconcileDeploymentStep],
          finalConditions := originalStatus, statusWritten := false }
    | none =>
      match (reconcileMCPServerService mcpServer env.svcSetRef env.svcCreate).error with
      | some e =>
          { result := { requeueAfterSeconds := none }, error := some e,
            steps := [Step.reconcileDeploymentStep, Step.reconcileServiceStep],
            finalConditions := originalStatus, statusWritten := false }
      | none =>
        match (reconcileMCPServerRoute mcpServer env.routeSetRef env.routeCreate).error with
        | some e =>
            { result := { requeueAfterSeconds := none }, error := some e,
              steps := [Step.reconcileDeploymentStep, Step.reconcileServiceStep,
                        Step.reconcileRouteStep],
              finalConditions := originalStatus, statusWritten := false }
        | none =>
          let overallReady := getOverallCondition (mergedThree mcpServer env)
          let s4 := mergedConditions mcpServer env
          let childSteps := [Step.reconcileDeploymentStep, Step.reconcileServiceStep,
                             Step.reconcileRouteStep]
          if s4 = originalStatus then
            { result := if overallReady.status = ConditionTrue
                  then { requeueAfterSeconds := none }
                  else { requeueAfterSeconds := some 15 },
              error := none, steps := childSteps,
              finalConditions := s4, statusWritten := false }
          else
            match env.updateErr with
            | some e =>
                { result := { requeueAfterSeconds := none }, error := some e,
                  steps := childSteps ++ [Step.statusUpdateStep],
                  finalConditions := s4, statusWritten := true }
            | none =>
                { result := if overallReady.status = ConditionTrue
                      then { requeueAfterSeconds := none }
                      else { requeueAfterSeconds := some 15 },
                  error := none, steps := childSteps ++ [Step.statusUpdateStep],
                  finalConditions := s4, statusWritten := true }

theorem updateCondition_id (c nc : Condition) (now : Nat)
    (hs : c.status = nc.status) (hr : c.reason = nc.reason)
    (hm : c.message = nc.message) :
    updateCondition c nc now = c := by
  unfold updateCondition
  rw [if_pos hs, ← hr, ← hm]

theorem setStatusCondition_id (now : Nat) (conds : List Condition) (nc c : Condition)
    (hfind : findStatusCondition conds nc.type = some c)
    (hs : c.status = nc.status) (hr : c.reason = nc.reason)
    (hm : c.message = nc.message) :
    setStatusCondition now conds nc = conds := by
  induction conds with
  | nil => simp [findStatusCondition] at hfind
  | cons c0 rest ih =>
    by_cases h0 : c0.type = nc.type
    · have hc : c0 = c := by
        simpa [findStatusCondition, h0] using hfind
      subst hc
      simp only [setStatusCondition, if_pos h0]
      rw [updateCondition_id c0 nc now hs hr hm]
    · have hfind' : findStatusCondition rest nc.type = some c := by
        simpa [findStatusCondition, h0] using hfind
      simp only [setStatusCondition, if_neg h0]
      rw [ih hfind']

theorem computed_match_merged_eq (cr : MCPServer) (env : ReconcileEnv)
    (hall : ∀ nc ∈ computedConditions cr env,
      ∃ c, findStatusCondition cr.statusConditions nc.type = some c
        ∧ c.status = nc.status ∧ c.reason = nc.reason ∧ c.message = nc.message) :
    mergedConditions cr env = cr.statusConditions := by
  obtain ⟨c1, hf1, hs1, hr1, hm1⟩ :=
    hall (getDeploymentCondition cr.name env.depGet) (by simp [computedConditions])
  obtain ⟨c2, hf2, hs2, hr2, hm2⟩ :=
    hall (getServiceCondition cr.name env.svcGet) (by simp [computedConditions])
  obtain ⟨c3, hf3, hs3, hr3, hm3⟩ :=
    hall (getRouteCondition cr.name env.routeGet) (by simp [computedConditions])
  obtain ⟨c4, hf4, hs4, hr4, hm4⟩ :=
    hall (getOverallCondition cr.statusConditions) (by simp [computedConditions])
  have h3 : mergedThree cr env = cr.statusConditions := by
    unfold mergedThree
    rw [setStatusCondition_id env.now _ _ c1 hf1 hs1 hr1 hm1,
        setStatusCondition_id env.now _ _ c2 hf2 hs2 hr2 hm2,
        setStatusCondition_id env.now _ _ c3 hf3 hs3 hr3 hm3]
  unfold mergedConditions
  rw [h3, setStatusCondition_id env.now _ _ c4 hf4 hs4 hr4 hm4]

/-- Claim C7: when the record is fetched successfully, the child reconcilers
run in the fixed order Deployment, Service, Route; the first one that fails
aborts the pass: its error is returned, the later children are not invoked,
no status update is issued, and the record's status is unchanged. -/
theorem reconcile_first_child_error_aborts (cr : MCPServer) (env : ReconcileEnv)
    (e : String) (h : firstChildError cr env = some e) :
    (Reconcile (GetResult.found cr) env).error = some e
    ∧ (Reconcile (GetResult.found cr) env).steps = childStepsTrace cr env
    ∧ Step.statusUpdateStep ∉ childStepsTrace cr env
    ∧ (Reconcile (GetResult.found cr) env).statusWritten = false
    ∧ (Reconcile (GetResult.found cr) env).finalConditions = cr.statusConditions := by
  unfold firstChildError at h
  cases hd : (reconcileMCPServerDeployment cr env.depSetRef env.depCreate).error with
  | some e1 =>
    rw [hd] at h
    obtain rfl : e1 = e := by simpa using h
    refine ⟨?_, ?_, ?_, ?_, ?_⟩ <;> simp [Reconcile, childStepsTrace, hd]
  | none =>
    rw [hd] at h
    cases hs : (reconcileMCPServerService cr env.svcSetRef env.svcCreate).error with
    | some e2 =>
      rw [hs] at h
      obtain rfl : e2 = e := by simpa using h
      refine ⟨?_, ?_, ?_, ?_, ?_⟩ <;> simp [Reconcile, childStepsTrace, hd, hs]
    | none =>
      rw [hs] at h
      cases hr : (reconcileMCPServerRoute cr env.routeSetRef env.routeCreate).error with
      | some e3 =>
        rw [hr] at h
        obtain rfl : e3 = e := by simpa using h
        refine ⟨?_, ?_, ?_, ?_, ?_⟩ <;> simp [Reconcile, childStepsTrace, hd, hs, hr]
      | none =>
        rw [hr] at h
        simp at h

/-- Claim C8: when the pass reaches the status step (all child reconcilers
succeeded), the status update is issued exactly when the condition set after
merging the four freshly computed conditions differs from the snapshot taken
at the start of the pass; and when every freshly computed condition matches
the snapshot in status, reason and message, no update call is made and the
final condition set is the untouched snapshot (in particular no transition
timestamp changes). -/
theorem reconcile_status_write_iff_changed (cr : MCPServer) (env : ReconcileEnv)
    (h : firstChildError cr env = none) :
    ((Reconcile (GetResult.found cr) env).statusWritten = true
        ↔ mergedConditions cr env ≠ cr.statusConditions)
    ∧ (Reconcile (GetResult.found cr) env).finalConditions = mergedConditions cr env
    ∧ ((∀ nc ∈ computedConditions cr env,
          ∃ c, findStatusCondition cr.statusConditions nc.type = some c
            ∧ c.status = nc.status ∧ c.reason = nc.reason ∧ c.message = nc.message)
        → (Reconcile (GetResult.found cr) env).statusWritten = false
          ∧ (Reconcile (GetResult.found cr) env).finalConditions
              = cr.statusConditions) := by
  unfold firstChildError at h
  cases hd : (reconcileMCPServerDeployment cr env.depSetRef env.depCreate).error with
  | some e1 => rw [hd] at h; simp at h
  | none =>
  rw [hd] at h
  cases hs : (reconcileMCPServerService cr env.svcSetRef env.svcCreate).error with
  | some e2 => rw [hs] at h; simp at h
  | none =>
  rw [hs] at h
  cases hr : (reconcileMCPServerRoute cr env.routeSetRef env.routeCreate).error with
  | some e3 => rw [hr] at h; simp at h
  | none =>
  by_cases hmerge : mergedConditions cr env = cr.statusConditions
  · refine ⟨?_, ?_, ?_⟩
    · simp [Reconcile, hd, hs, hr, hmerge]
    · simp [Reconcile, hd, hs, hr, hmerge]
    · intro _
      constructor <;> simp [Reconcile, hd, hs, hr, hmerge]
  · refine ⟨?_, ?_, ?_⟩
    · cases hu : env.updateErr <;> simp [Reconcile, hd, hs, hr, hmerge, hu]
    · cases hu : env.updateErr <;> simp [Reconcile, hd, hs, hr, hmerge, hu]
    · intro hall
      exact absurd (computed_match_merged_eq cr env hall) hmerge

/-- Claim C9: a pass that completes without a hard error (record fetched, all
three children reconciled, status update - when issued - succeeded) returns a
requeue-after of exactly 15 seconds when the overall condition computed in
the pass is not True, and the empty result otherwise; the delay does not
depend on which child is unready or why. -/
theorem reconcile_requeue_policy (cr : MCPServer) (env : ReconcileEnv)
    (h : firstChildError cr env = none) (hu : env.updateErr = none) :
    (Reconcile (GetResult.found cr) env).error = none
    ∧ (Reconcile (GetResult.found cr) env).result.requeueAfterSeconds
        = (if (getOverallCondition (mergedThree cr env)).status = ConditionTrue
           then none else some 15) := by
  unfold firstChildError at h
  cases hd : (reconcileMCPServerDeployment cr env.depSetRef env.depCreate).error with
  | some e1 => rw [hd] at h; simp at h
  | none =>
  rw [hd] at h
  cases hs : (reconcileMCPServerService cr env.svcSetRef env.svcCreate).error with
  | some e2 => rw [hs] at h; simp at h
  | none =>
  rw [hs] at h
  cases hr : (reconcileMCPServerRoute cr env.routeSetRef env.routeCreate).error with
  | some e3 => rw [hr] at h; simp at h
  | none =>
  by_cases hmerge : mergedConditions cr env = cr.statusConditions <;>
    by_cases hov : (getOverallCondition (mergedThree cr env)).status = ConditionTrue <;>
      constructor <;> simp [Reconcile, hd, hs, hr, hmerge, hu, hov]

/-- A concrete desired-state record used by the witnesses. -/
def cr0 : MCPServer :=
  { name := "demo", ns := "testns", image := "img", command := [], args := [],
    statusConditions := [] }

/-- An environment in which the deployment create fails with a non
already-exists error. -/
def envDepFail : ReconcileEnv :=
  { depSetRef := none, depCreate := CreateResult.otherError "boom",
    svcSetRef := none, svcCreate := CreateResult.ok,
    routeSetRef := none, routeCreate := CreateResult.ok,
    depGet := GetResult.notFound, svcGet := GetResult.notFound,
    routeGet := GetResult.notFound, updateErr := none, now := 7 }

/-- An environment in which all cluster calls succeed but no child resource
is found yet. -/
def envAllOk : ReconcileEnv :=
  { depSetRef := none, depCreate := CreateResult.ok,
    svcSetRef := none, svcCreate := CreateResult.ok,
    routeSetRef := none, routeCreate := CreateResult.ok,
    depGet := GetResult.notFound, svcGet := GetResult.notFound,
    routeGet := GetResult.notFound, updateErr := none, now := 7 }

theorem reconcile_first_child_error_aborts_witness :
    (Reconcile (GetResult.found cr0) envDepFail).error = some "boom"
    ∧ (Reconcile (GetResult.found cr0) envDepFail).statusWritten = false :=
  ⟨(reconcile_first_child_error_aborts cr0 envDepFail "boom" rfl).1,
   (reconcile_first_child_error_aborts cr0 envDepFail "boom" rfl).2.2.2.1⟩

theorem reconcile_status_write_iff_changed_witness :
    (Reconcile (GetResult.found cr0) envAllOk).statusWritten = true
      ↔ mergedConditions cr0 envAllOk ≠ cr0.statusConditions :=
  (reconcile_status_write_iff_changed cr0 envAllOk rfl).1

theorem reconcile_requeue_policy_witness :
    (Reconcile (GetResult.found cr0) envAllOk).error = none
    ∧ (Reconcile (GetResult.found cr0) envAllOk).result.requeueAfterSeconds
        = (if (getOverallCondition (mergedThree cr0 envAllOk)).status = ConditionTrue
           then none else some 15) :=
  reconcile_requeue_policy cr0 envAllOk rfl rfl

end MCPServerOperator
